import Mathlib

set_option maxHeartbeats 1000000

/- Shallow embedding of src/electron/services/whatsapp.ts (Baileys based
WhatsApp client).  The mutable module globals of that file (sock, lastQr,
isReady, lastReadyAt, initializationAttempts, isInitializing, the session
credential directory) become explicit state records; the connection.update,
messages.upsert and timer handlers, as well as sendMessage, become pure
functions from a state to a new state plus a list of emitted effects
(renderer notifications, scheduled timers, scheduled re-initializations,
transport calls). -/

/-- MAX_INITIALIZATION_ATTEMPTS, whatsapp.ts line 18. -/
def MAX_INITIALIZATION_ATTEMPTS : Nat := 5

/-- MAX_RETRIES inside sendMessage, whatsapp.ts line 789. -/
def MAX_SEND_RETRIES : Nat := 3

/-- RETRY_DELAY inside sendMessage, whatsapp.ts line 790 (milliseconds). -/
def SEND_RETRY_DELAY_MS : Nat := 1000

/-- Delay of the auto-ready timer started when a qr event arrives,
whatsapp.ts line 168 (milliseconds). -/
def QR_AUTO_READY_DELAY_MS : Nat := 30000

/-- Delay of the auto-ready timer started by the messages.upsert handler,
whatsapp.ts line 405 (milliseconds). -/
def MSG_AUTO_READY_DELAY_MS : Nat := 3000

/-- Numeric value of DisconnectReason.loggedOut in the Baileys library that
whatsapp.ts imports; the close handler compares the Boom status code of a
connectionClosed event against it at line 290. -/
def DisconnectReason_loggedOut : Nat := 401

/-- ASCII characters removed from the phone number by the replace of the
character class of dash and whitespace at whatsapp.ts line 844. -/
def strippedChar (c : Char) : Bool :=
  c = '-' || c = ' ' || c = '\t' || c = '\n' || c = '\r' || c = '\x0b' || c = '\x0c'

/-- Sanitised phone number, whatsapp.ts line 844: every dash and whitespace
character is deleted. -/
def sanitizePhone (phoneNumber : String) : String :=
  String.mk (phoneNumber.toList.filter (fun c => !(strippedChar c)))

/-- JavaScript String.prototype.trim restricted to ASCII whitespace, used on
the message text at whatsapp.ts line 839 and on qr data at line 113. -/
def jsWhitespace (c : Char) : Bool :=
  c = ' ' || c = '\t' || c = '\n' || c = '\r' || c = '\x0b' || c = '\x0c'

/-- Leading and trailing whitespace removed, modelling message.trim(). -/
def jsTrim (s : String) : String :=
  String.mk (((s.toList.dropWhile jsWhitespace).reverse.dropWhile jsWhitespace).reverse)

/-- Test for the leading plus sigil, whatsapp.ts line 849. -/
def startsWithPlus (s : String) : Bool :=
  match s.toList with
  | c :: _ => c = '+'
  | [] => false

/-- Outcome of one transport sock.sendMessage call as classified by the catch
block of sendMessage, whatsapp.ts lines 866 to 882: a failure is recoverable
exactly when the error message matches one of the connection-loss, timeout,
network or malformed-state substrings listed there. -/
inductive AttemptOutcome where
  | success : AttemptOutcome
  | failure (recoverable : Bool) : AttemptOutcome
deriving DecidableEq

/-- The connection globals read by sendMessage: whether the sock object is
non-null, whether it has a sendMessage function, and the isReady flag. -/
structure SendState where
  sockExists : Bool
  hasSendMessage : Bool
  isReady : Bool
deriving DecidableEq

/-- The distinct throw sites of sendMessage, whatsapp.ts lines 795 to 907. -/
inductive SendError where
  | clientNotInit : SendError
  | clientNotProperlyInit : SendError
  | invalidPhone : SendError
  | invalidMessage : SendError
  | phoneTooShort : SendError
  | sendFailed (attempts : Nat) : SendError
deriving DecidableEq

/-- Result of a sendMessage call: the success record with the final number,
or a thrown error. -/
inductive SendResult where
  | ok (finalNumber : String) : SendResult
  | err (e : SendError) : SendResult
deriving DecidableEq

/-- Observable trace of one sendMessage call: its result, how many transport
sock.sendMessage calls were made, the inter-attempt delays slept before each
retry, and the retryCount values at which reinitializeConnection was
triggered. -/
structure SendTrace where
  result : SendResult
  transportCalls : Nat
  retryDelays : List Nat
  reinitAt : List Nat
deriving DecidableEq

/-- The three invalid-input throw sites of sendMessage (invalid phone number,
invalid message, phone number too short), whatsapp.ts lines 833 to 847. -/
def isInvalidInputErr : SendResult → Bool
  | SendResult.err SendError.invalidPhone => true
  | SendResult.err SendError.invalidMessage => true
  | SendResult.err SendError.phoneTooShort => true
  | _ => false

/-- Verdict of one pass through the body of sendMessage at a fixed
retryCount: either the call finishes here with a trace, or the catch block
decides to retry (recoverable error below MAX_RETRIES). -/
inductive StepVerdict where
  | done (t : SendTrace) : StepVerdict
  | retry : StepVerdict
deriving DecidableEq

/-- One pass through the body of sendMessage, whatsapp.ts lines 788 to 909,
at a given retryCount, up to the retry decision.  The checks appear in
source order: null socket, the lenient not-ready branch (which only throws
when the socket lacks a sendMessage function), the final sendMessage
function check, phone validation, message validation, sanitisation with the
8 character minimum, then the transport call whose outcome the oracle gives;
a recoverable failure below MAX_RETRIES yields the retry verdict, anything
else finishes.  The readiness wait loop of lines 809 to 824 only spends time
and changes nothing observable, so it is not recorded. -/
def sendMessageStep (oracle : Nat → AttemptOutcome) (st : SendState)
    (phoneNumber message : String) (retryCount : Nat) : StepVerdict :=
  if st.sockExists = false then
    StepVerdict.done
      { result := SendResult.err SendError.clientNotInit,
        transportCalls := 0, retryDelays := [], reinitAt := [] }
  else if st.isReady = false ∧ st.hasSendMessage = false then
    StepVerdict.done
      { result := SendResult.err SendError.clientNotProperlyInit,
        transportCalls := 0, retryDelays := [], reinitAt := [] }
  else if st.hasSendMessage = false then
    StepVerdict.done
      { result := SendResult.err SendError.clientNotProperlyInit,
        transportCalls := 0, retryDelays := [], reinitAt := [] }
  else if phoneNumber = "" then
    StepVerdict.done
      { result := SendResult.err SendError.invalidPhone,
        transportCalls := 0, retryDelays := [], reinitAt := [] }
  else if jsTrim message = "" then
    StepVerdict.done
      { result := SendResult.err SendError.invalidMessage,
        transportCalls := 0, retryDelays := [], reinitAt := [] }
  else
    let sanitizedNumber := sanitizePhone phoneNumber
    if sanitizedNumber = "" ∨ sanitizedNumber.length < 8 then
      StepVerdict.done
        { result := SendResult.err SendError.phoneTooShort,
          transportCalls := 0, retryDelays := [], reinitAt := [] }
    else
      let finalNumber :=
        if startsWithPlus sanitizedNumber then sanitizedNumber else "+" ++ sanitizedNumber
      match oracle retryCount with
      | AttemptOutcome.success =>
        StepVerdict.done
          { result := SendResult.ok finalNumber,
            transportCalls := 1, retryDelays := [], reinitAt := [] }
      | AttemptOutcome.failure recoverable =>
        if recoverable = true ∧ retryCount < MAX_SEND_RETRIES then StepVerdict.retry
        else
          StepVerdict.done
            { result := SendResult.err (SendError.sendFailed (retryCount + 1)),
              transportCalls := 1, retryDelays := [], reinitAt := [] }

/-- Accumulation of a retry layer of sendMessage, whatsapp.ts lines 885 to
903: one transport call was made here, a fixed RETRY_DELAY sleep precedes
the recursive call, and reinitializeConnection runs only when retryCount is
0. -/
def retryWrap (retryCount : Nat) (rest : SendTrace) : SendTrace :=
  { result := rest.result,
    transportCalls := 1 + rest.transportCalls,
    retryDelays := SEND_RETRY_DELAY_MS :: rest.retryDelays,
    reinitAt := (if retryCount = 0 then [0] else []) ++ rest.reinitAt }

/-- The recursive retry structure of sendMessage, whatsapp.ts line 902: on a
retry verdict the call recurses at retryCount + 1, against the state left by
reinitializeConnection when this was the first retry.  fuel only bounds the
recursion depth; call sites keep fuel at least MAX_SEND_RETRIES minus
retryCount, and since a retry verdict implies retryCount below
MAX_SEND_RETRIES, the zero-fuel exhaustion arm is never reached there. -/
def sendMessageRec (oracle : Nat → AttemptOutcome) (stReinit : SendState)
    (phoneNumber message : String) : Nat → Nat → SendState → SendTrace
  | retryCount, 0, st =>
    match sendMessageStep oracle st phoneNumber message retryCount with
    | StepVerdict.done t => t
    | StepVerdict.retry =>
      { result := SendResult.err (SendError.sendFailed (retryCount + 1)),
        transportCalls := 1, retryDelays := [], reinitAt := [] }
  | retryCount, Nat.succ fuel, st =>
    match sendMessageStep oracle st phoneNumber message retryCount with
    | StepVerdict.done t => t
    | StepVerdict.retry =>
      retryWrap retryCount
        (sendMessageRec oracle stReinit phoneNumber message (retryCount + 1) fuel
          (if retryCount = 0 then stReinit else st))

/-- A sendMessage call as made by callers, starting at retryCount 0 with
enough fuel for the full MAX_RETRIES recursion.  st is the connection state
seen by the call and stReinit the state left behind by a
reinitializeConnection during the first retry. -/
def sendMessage (oracle : Nat → AttemptOutcome) (st stReinit : SendState)
    (phoneNumber message : String) : SendTrace :=
  sendMessageRec oracle stReinit phoneNumber message 0 MAX_SEND_RETRIES st

/-- The module globals of whatsapp.ts as one record: sock (existence and
whether it carries a sendMessage function), lastQr, isReady, lastReadyAt,
initializationAttempts, isInitializing, plus whether the persisted session
credential directory still exists. -/
structure ClientState where
  sockExists : Bool
  hasSendMessage : Bool
  lastQr : Option String
  isReady : Bool
  lastReadyAt : Option Nat
  initializationAttempts : Nat
  isInitializing : Bool
  sessionCreds : Bool
deriving DecidableEq

/-- The two auto-ready timers of whatsapp.ts: the 30 second timer started on
a qr event (line 142) and the 3 second timer started by messages.upsert
(line 399). -/
inductive TimerKind where
  | qrAutoReady : TimerKind
  | msgAutoReady : TimerKind
deriving DecidableEq

/-- Externally visible effects of the handlers: renderer notifications, the
asynchronous 405 recovery kick-off, scheduled re-initializations and
scheduled timers. -/
inductive Effect where
  | qrNotify (qr : String) : Effect
  | readyNotify (autoReady : Bool) : Effect
  | connectedNotify : Effect
  | connectionFailureNotify (errorCode : Option Nat) : Effect
  | authFailureNotify (message : String) : Effect
  | sessionClearedNotify : Effect
  | sessionAutoClearedNotify (reason : String) : Effect
  | start405Recovery : Effect
  | initFailureNotify : Effect
  | scheduleReinit (delayMs : Nat) : Effect
  | scheduleTimer (kind : TimerKind) (delayMs : Nat) : Effect
deriving DecidableEq

/-- Whether an effect list schedules a re-initialization. -/
def hasScheduleReinit (effects : List Effect) : Bool :=
  effects.any (fun e => match e with | Effect.scheduleReinit _ => true | _ => false)

/-- clearSessionData, whatsapp.ts lines 543 to 585: ends and drops the
socket, resets isReady, lastQr, initializationAttempts and isInitializing,
deletes the session credential directory, and notifies the renderer. -/
def clearSessionData (st : ClientState) : ClientState × List Effect :=
  ({ sockExists := false, hasSendMessage := false, lastQr := none, isReady := false,
     lastReadyAt := st.lastReadyAt, initializationAttempts := 0, isInitializing := false,
     sessionCreds := false },
   [Effect.sessionClearedNotify])

/-- attemptReinitialization, whatsapp.ts lines 483 to 524: below
MAX_INITIALIZATION_ATTEMPTS it schedules a retry after a delay of
(attempts + 1) * 3000 ms while attempts is at most 2 and
(attempts + 1) * 5000 ms afterwards; at the cap it clears the session and
sends the auth failure notification. -/
def attemptReinitialization (st : ClientState) : ClientState × List Effect :=
  if st.initializationAttempts < MAX_INITIALIZATION_ATTEMPTS then
    let delay :=
      if st.initializationAttempts ≤ 2 then (st.initializationAttempts + 1) * 3000
      else (st.initializationAttempts + 1) * 5000
    (st, [Effect.scheduleReinit delay])
  else
    let cleared := clearSessionData st
    (cleared.1,
     cleared.2 ++ [Effect.authFailureNotify
       "Maximum initialization attempts reached. Please try again later."])

/-- The connection close branch of the connection.update handler,
whatsapp.ts lines 171 to 337.  A 405 status kicks off the asynchronous
handle405Error recovery; a 401 status synchronously clears the session and
notifies the renderer of the auto-clear.  Then shouldReconnect is the Boom
status code differing from DisconnectReason.loggedOut (and true for a
non-Boom error); the reconnect path clears readiness, lastQr and
isInitializing, sends the connection failure notification and calls
attemptReinitialization, while the logged-out path clears readiness and
lastQr and sends only the logged-out auth failure notification. -/
def handleConnClose (isBoom : Bool) (errorCode : Option Nat) (st : ClientState) :
    ClientState × List Effect :=
  let branch401 :=
    if errorCode = some 405 then (st, [Effect.start405Recovery])
    else if errorCode = some 401 then
      let cleared := clearSessionData st
      (cleared.1, cleared.2 ++ [Effect.sessionAutoClearedNotify "401_unauthorized"])
    else (st, ([] : List Effect))
  let st1 := branch401.1
  let effs1 := branch401.2
  let shouldReconnect : Bool :=
    if isBoom then errorCode != some DisconnectReason_loggedOut else true
  if shouldReconnect then
    let st2 := { st1 with isReady := false, lastQr := none, isInitializing := false }
    let next := attemptReinitialization st2
    (next.1, effs1 ++ [Effect.connectionFailureNotify errorCode] ++ next.2)
  else
    let st2 := { st1 with isReady := false, lastQr := none, isInitializing := false }
    (st2, effs1 ++ [Effect.authFailureNotify "Logged out from WhatsApp"])

/-- The connection open branch of the connection.update handler, whatsapp.ts
lines 338 to 376: sets isReady and lastReadyAt, sends the ready and the
connected notifications, resets isInitializing and initializationAttempts. -/
def handleConnOpen (now : Nat) (st : ClientState) : ClientState × List Effect :=
  ({ st with
      isReady := true, lastReadyAt := some now, isInitializing := false,
      initializationAttempts := 0 },
   [Effect.readyNotify false, Effect.connectedNotify])

/-- The qr branch of the connection.update handler, whatsapp.ts lines 108 to
169: stores the qr in lastQr, and unless the qr is blank forwards it to the
renderer and starts the 30 second auto-ready timer. -/
def handleQr (qr : String) (st : ClientState) : ClientState × List Effect :=
  let st1 := { st with lastQr := some qr }
  if jsTrim qr = "" then (st1, [])
  else (st1, [Effect.qrNotify qr,
              Effect.scheduleTimer TimerKind.qrAutoReady QR_AUTO_READY_DELAY_MS])

/-- Firing of the qr auto-ready timer, whatsapp.ts lines 142 to 168: if a
socket still exists, the client is not ready and a lastQr is still held, and
the socket has a sendMessage function, the client is marked ready and the
auto-ready notification is sent. -/
def fireQrAutoReady (now : Nat) (st : ClientState) : ClientState × List Effect :=
  if st.sockExists && !st.isReady && st.lastQr.isSome then
    if st.sockExists && st.hasSendMessage then
      ({ st with isReady := true, lastReadyAt := some now }, [Effect.readyNotify true])
    else (st, [])
  else (st, [])

/-- The messages.upsert handler, whatsapp.ts lines 395 to 407: when not
ready and at least one message arrived, it starts the 3 second auto-ready
timer. -/
def handleMessagesUpsert (messageCount : Nat) (st : ClientState) :
    ClientState × List Effect :=
  if !st.isReady && messageCount != 0 then
    (st, [Effect.scheduleTimer TimerKind.msgAutoReady MSG_AUTO_READY_DELAY_MS])
  else (st, [])

/-- Firing of the messages.upsert auto-ready timer, whatsapp.ts lines 399 to
405: if still not ready and a socket exists, marks the client ready; no
notification is sent on this path. -/
def fireMsgAutoReady (now : Nat) (st : ClientState) : ClientState × List Effect :=
  if !st.isReady && st.sockExists then
    ({ st with isReady := true, lastReadyAt := some now }, [])
  else (st, [])

/-- Environment outcome of one initializeClient body: either the Baileys
socket is created and its handlers registered, or the try block throws. -/
inductive InitOutcome where
  | socketCreated : InitOutcome
  | setupError : InitOutcome
deriving DecidableEq

/-- The synchronous driver of initializeClient, whatsapp.ts lines 23 to 480:
the reentrancy guard returns at once while isInitializing is set; otherwise
the flag is set, the attempt counter incremented, an already ready socket
short-circuits, an existing socket is torn down, and the try block either
installs the fresh socket (leaving isInitializing set until a connection
event clears it) or its catch clears the flags, notifies the renderer of the
failure, and either calls attemptReinitialization or, at the attempt cap,
clearSessionData. -/
def initClientStep (env : InitOutcome) (st : ClientState) : ClientState × List Effect :=
  if st.isInitializing then (st, [])
  else
    let st1 := { st with
                  isInitializing := true,
                  initializationAttempts := st.initializationAttempts + 1 }
    if st1.sockExists && st1.isReady then ({ st1 with isInitializing := false }, [])
    else
      let st2 :=
        if st1.sockExists then { st1 with sockExists := false, hasSendMessage := false }
        else st1
      match env with
      | InitOutcome.socketCreated =>
        ({ st2 with sockExists := true, hasSendMessage := true }, [])
      | InitOutcome.setupError =>
        let st3 := { st2 with isReady := false, lastQr := none, isInitializing := false }
        if st3.initializationAttempts < MAX_INITIALIZATION_ATTEMPTS then
          let next := attemptReinitialization st3
          (next.1, Effect.initFailureNotify :: next.2)
        else
          let cleared := clearSessionData st3
          (cleared.1, Effect.initFailureNotify :: cleared.2)

/-- Transport and timer events fed to the registered handlers. -/
inductive WaEvent where
  | qr (data : String) : WaEvent
  | connOpened (now : Nat) : WaEvent
  | connClosed (isBoom : Bool) (errorCode : Option Nat) : WaEvent
  | messagesUpsert (messageCount : Nat) : WaEvent
  | qrTimerFired (now : Nat) : WaEvent
  | msgTimerFired (now : Nat) : WaEvent
deriving DecidableEq

/-- Dispatch of one event to the handler whatsapp.ts registers for it. -/
def stepEvent (ev : WaEvent) (st : ClientState) : ClientState × List Effect :=
  match ev with
  | WaEvent.qr d => handleQr d st
  | WaEvent.connOpened n => handleConnOpen n st
  | WaEvent.connClosed b c => handleConnClose b c st
  | WaEvent.messagesUpsert k => handleMessagesUpsert k st
  | WaEvent.qrTimerFired n => fireQrAutoReady n st
  | WaEvent.msgTimerFired n => fireMsgAutoReady n st

/-- State reached after processing a list of events in order. -/
def runTrace (events : List WaEvent) (st : ClientState) : ClientState :=
  events.foldl (fun s e => (stepEvent e s).1) st

/-- Whether a trace contains a connectionOpened transport event. -/
def hasConnOpened (events : List WaEvent) : Bool :=
  events.any (fun e => match e with | WaEvent.connOpened _ => true | _ => false)

/-- A healthy open connection as seen by sendMessage. -/
def stGood : SendState :=
  { sockExists := true, hasSendMessage := true, isReady := true }

/-- Oracle under which every transport call succeeds. -/
def allOkOracle : Nat → AttemptOutcome := fun _ => AttemptOutcome.success

/-- Client state right after a successful initializeClient body: socket
installed with a sendMessage function, not ready, no qr yet, one attempt
recorded, isInitializing still set, credentials directory present. -/
def freshClientState : ClientState :=
  { sockExists := true, hasSendMessage := true, lastQr := none, isReady := false,
    lastReadyAt := none, initializationAttempts := 1, isInitializing := true,
    sessionCreds := true }

/-- A client state with a given reconnect attempt counter and no live
socket, as left behind by a connection loss. -/
def stateWithAttempts (a : Nat) : ClientState :=
  { sockExists := false, hasSendMessage := false, lastQr := none, isReady := false,
    lastReadyAt := none, initializationAttempts := a, isInitializing := false,
    sessionCreds := true }

/-- An open, ready client state with persisted credentials. -/
def openClientState : ClientState :=
  { sockExists := true, hasSendMessage := true, lastQr := none, isReady := true,
    lastReadyAt := some 1000, initializationAttempts := 0, isInitializing := false,
    sessionCreds := true }

/-- Retry-shape invariant of a sendMessage trace produced with the given
fuel at the given retryCount: the number of transport calls exceeds the
remaining fuel by at most one, every inter-attempt delay is the fixed
RETRY_DELAY, and reinitializeConnection is triggered exactly when the call
started at retryCount 0 and at least one retry happened. -/
def SendOk (fuel retryCount : Nat) (t : SendTrace) : Prop :=
  t.transportCalls ≤ 1 + fuel ∧
  t.retryDelays.length ≤ fuel ∧
  t.retryDelays = List.replicate t.retryDelays.length SEND_RETRY_DELAY_MS ∧
  t.reinitAt = (if retryCount = 0 then
    (if t.retryDelays = [] then ([] : List Nat) else [0]) else [])

theorem sendOk_of_flat (fuel retryCount : Nat) (t : SendTrace)
    (hc : t.transportCalls ≤ 1) (hd : t.retryDelays = []) (hr : t.reinitAt = []) :
    SendOk fuel retryCount t := by
  refine ⟨by omega, by simp [hd], by simp [hd], by simp [hd, hr]⟩

theorem sendMessageStep_done_flat (oracle : Nat → AttemptOutcome) (st : SendState)
    (phoneNumber message : String) (retryCount : Nat) (t : SendTrace)
    (h : sendMessageStep oracle st phoneNumber message retryCount = StepVerdict.done t) :
    t.transportCalls ≤ 1 ∧ t.retryDelays = [] ∧ t.reinitAt = [] := by
  unfold sendMessageStep at h
  dsimp only at h
  repeat' split at h
  all_goals cases h
  all_goals exact ⟨by norm_num, rfl, rfl⟩

theorem sendMessageRec_done (oracle : Nat → AttemptOutcome) (stReinit : SendState)
    (phoneNumber message : String) (retryCount fuel : Nat) (st : SendState)
    (t : SendTrace)
    (h : sendMessageStep oracle st phoneNumber message retryCount = StepVerdict.done t) :
    sendMessageRec oracle stReinit phoneNumber message retryCount fuel st = t := by
  cases fuel <;> simp [sendMessageRec, h]

theorem sendMessageRec_retry (oracle : Nat → AttemptOutcome) (stReinit : SendState)
    (phoneNumber message : String) (retryCount fuel : Nat) (st : SendState)
    (h : sendMessageStep oracle st phoneNumber message retryCount = StepVerdict.retry) :
    sendMessageRec oracle stReinit phoneNumber message retryCount (fuel + 1) st =
      retryWrap retryCount
        (sendMessageRec oracle stReinit phoneNumber message (retryCount + 1) fuel
          (if retryCount = 0 then stReinit else st)) := by
  simp [sendMessageRec, h]

theorem sendOk_retry_step (fuel retryCount : Nat) (rest : SendTrace)
    (h : SendOk fuel (retryCount + 1) rest) :
    SendOk (fuel + 1) retryCount (retryWrap retryCount rest) := by
  obtain ⟨h1, h2, h3, h4⟩ := h
  have h4' : rest.reinitAt = [] := by simpa using h4
  unfold SendOk retryWrap
  refine ⟨by dsimp only; omega, ?_, ?_, ?_⟩
  · simpa using Nat.succ_le_succ h2
  · simp only [List.length_cons, List.replicate_succ]
    exact congrArg (List.cons SEND_RETRY_DELAY_MS) h3
  · simp [h4']

theorem sendMessageRec_spec (oracle : Nat → AttemptOutcome) (stReinit : SendState)
    (phoneNumber message : String) :
    ∀ (fuel retryCount : Nat) (st : SendState),
      SendOk fuel retryCount
        (sendMessageRec oracle stReinit phoneNumber message retryCount fuel st) := by
  intro fuel
  induction fuel with
  | zero =>
    intro retryCount st
    cases h : sendMessageStep oracle st phoneNumber message retryCount with
    | done t =>
      rw [sendMessageRec_done oracle stReinit phoneNumber message retryCount 0 st t h]
      obtain ⟨hc, hd, hr⟩ :=
        sendMessageStep_done_flat oracle st phoneNumber message retryCount t h
      exact sendOk_of_flat _ _ _ hc hd hr
    | retry =>
      have hz : sendMessageRec oracle stReinit phoneNumber message retryCount 0 st =
          { result := SendResult.err (SendError.sendFailed (retryCount + 1)),
            transportCalls := 1, retryDelays := [], reinitAt := [] } := by
        simp [sendMessageRec, h]
      rw [hz]
      exact sendOk_of_flat _ _ _ (by simp) rfl rfl
  | succ fuel ih =>
    intro retryCount st
    cases h : sendMessageStep oracle st phoneNumber message retryCount with
    | done t =>
      rw [sendMessageRec_done oracle stReinit phoneNumber message retryCount (fuel + 1) st t h]
      obtain ⟨hc, hd, hr⟩ :=
        sendMessageStep_done_flat oracle st phoneNumber message retryCount t h
      exact sendOk_of_flat _ _ _ hc hd hr
    | retry =>
      rw [sendMessageRec_retry oracle stReinit phoneNumber message retryCount fuel st h]
      exact sendOk_retry_step _ _ _ (ih _ _)

/-- Claim C1 (corrected), counterexample: the claim puts the tier boundary
of the backoff at attempt 2 and asserts a doubled delay for protocol
rejected (405) closes.  At attempt counter 2 the code schedules
(2 + 1) * 3000 = 9000 ms, not the claimed (2 + 1) * 5000 = 15000 ms, and a
Boom 405 close at attempt counter 1 schedules the plain 6000 ms transient
delay, not the claimed doubled 12000 ms. -/
theorem C1_counterexample :
    (attemptReinitialization (stateWithAttempts 2)).2 = [Effect.scheduleReinit 9000] ∧
    (9000 : Nat) ≠ (2 + 1) * 5000 ∧
    (handleConnClose true (some 405) (stateWithAttempts 1)).2 =
      [Effect.start405Recovery, Effect.connectionFailureNotify (some 405),
       Effect.scheduleReinit 6000] ∧
    (6000 : Nat) ≠ 2 * ((1 + 1) * 3000) := by
  decide

/-- Claim C1 (corrected), amended: for attempt counter a below
MAX_INITIALIZATION_ATTEMPTS the scheduled delay is (a + 1) * 3000 ms while
a is at most 2 and (a + 1) * 5000 ms for a of 3 or 4, giving the table
3000, 6000, 9000, 20000, 25000 ms; no reason-class multiplier exists: a
Boom 405 close schedules the same transient delay and separately kicks off
the asynchronous aggressive 405 session-reset recovery. -/
theorem C1_backoff_schedule :
    (attemptReinitialization (stateWithAttempts 0)).2 = [Effect.scheduleReinit 3000] ∧
    (attemptReinitialization (stateWithAttempts 1)).2 = [Effect.scheduleReinit 6000] ∧
    (attemptReinitialization (stateWithAttempts 2)).2 = [Effect.scheduleReinit 9000] ∧
    (attemptReinitialization (stateWithAttempts 3)).2 = [Effect.scheduleReinit 20000] ∧
    (attemptReinitialization (stateWithAttempts 4)).2 = [Effect.scheduleReinit 25000] ∧
    (handleConnClose true (some 405) (stateWithAttempts 0)).2 =
      [Effect.start405Recovery, Effect.connectionFailureNotify (some 405),
       Effect.scheduleReinit 3000] := by
  decide

/-- Claim C2 (corrected), counterexample: with an open, ready connection and
a transport that would accept every call, sendMessage of phone 555-1234 and
text hi does not succeed on a first transport call: the sanitised number
5551234 has only 7 digits, below the 8 character minimum of whatsapp.ts
line 845, so the call throws the too-short invalid input error after zero
transport calls. -/
theorem C2_counterexample :
    (sendMessage allOkOracle stGood stGood "555-1234" "hi").transportCalls = 0 ∧
    (sendMessage allOkOracle stGood stGood "555-1234" "hi").result =
      SendResult.err SendError.phoneTooShort := by
  decide

/-- Claim C2 (corrected), amended: with the connection open, sendMessage of
555-1234 and hi fails immediately with the too-short invalid input error
(7 characters after stripping the dash, below the 8 character minimum) and
performs zero transport calls and no retry, as does sendMessage of the
empty target; a target of at least 8 digits such as 15551234567 succeeds on
the first transport call with no retry. -/
theorem C2_send_scenarios :
    (sendMessage allOkOracle stGood stGood "555-1234" "hi").result =
      SendResult.err SendError.phoneTooShort ∧
    (sendMessage allOkOracle stGood stGood "555-1234" "hi").transportCalls = 0 ∧
    (sendMessage allOkOracle stGood stGood "555-1234" "hi").retryDelays = [] ∧
    (sendMessage allOkOracle stGood stGood "" "hi").result =
      SendResult.err SendError.invalidPhone ∧
    (sendMessage allOkOracle stGood stGood "" "hi").transportCalls = 0 ∧
    (sendMessage allOkOracle stGood stGood "" "hi").retryDelays = [] ∧
    (sendMessage allOkOracle stGood stGood "15551234567" "hi").result =
      SendResult.ok "+15551234567" ∧
    (sendMessage allOkOracle stGood stGood "15551234567" "hi").transportCalls = 1 ∧
    (sendMessage allOkOracle stGood stGood "15551234567" "hi").retryDelays = [] := by
  decide

/-- Claim C3 (confirmed): with an installed socket carrying a sendMessage
function, any call whose target sanitises to fewer than 8 characters (which
includes the empty target) or whose text is empty after trimming fails
immediately with one of the invalid input errors, makes zero transport
calls, sleeps no retry delay and triggers no reconnection. -/
theorem C3_invalid_input_rejected (oracle : Nat → AttemptOutcome)
    (st stReinit : SendState) (phoneNumber message : String)
    (hsock : st.sockExists = true) (hsend : st.hasSendMessage = true)
    (hbad : (sanitizePhone phoneNumber).length < 8 ∨ jsTrim message = "") :
    isInvalidInputErr (sendMessage oracle st stReinit phoneNumber message).result = true ∧
    (sendMessage oracle st stReinit phoneNumber message).transportCalls = 0 ∧
    (sendMessage oracle st stReinit phoneNumber message).retryDelays = [] ∧
    (sendMessage oracle st stReinit phoneNumber message).reinitAt = [] := by
  have hstep : ∃ e, isInvalidInputErr (SendResult.err e) = true ∧
      sendMessageStep oracle st phoneNumber message 0 = StepVerdict.done
        { result := SendResult.err e,
          transportCalls := 0, retryDelays := [], reinitAt := [] } := by
    unfold sendMessageStep
    dsimp only
    rw [if_neg (by simp [hsock])]
    rw [if_neg (by simp [hsend])]
    rw [if_neg (by simp [hsend])]
    by_cases h4 : phoneNumber = ""
    · exact ⟨SendError.invalidPhone, rfl, by rw [if_pos h4]⟩
    · rw [if_neg h4]
      by_cases h5 : jsTrim message = ""
      · exact ⟨SendError.invalidMessage, rfl, by rw [if_pos h5]⟩
      · rw [if_neg h5]
        have h6 : sanitizePhone phoneNumber = "" ∨ (sanitizePhone phoneNumber).length < 8 := by
          rcases hbad with hshort | htrim
          · exact Or.inr hshort
          · exact absurd htrim h5
        exact ⟨SendError.phoneTooShort, rfl, by rw [if_pos h6]⟩
  obtain ⟨e, he, hstep⟩ := hstep
  unfold sendMessage
  rw [sendMessageRec_done oracle stReinit phoneNumber message 0 MAX_SEND_RETRIES st _ hstep]
  exact ⟨he, rfl, rfl, rfl⟩

/-- Witness for claim C3 at the concrete empty target. -/
theorem C3_witness :
    isInvalidInputErr (sendMessage allOkOracle stGood stGood "" "hi").result = true ∧
    (sendMessage allOkOracle stGood stGood "" "hi").transportCalls = 0 ∧
    (sendMessage allOkOracle stGood stGood "" "hi").retryDelays = [] ∧
    (sendMessage allOkOracle stGood stGood "" "hi").reinitAt = [] :=
  C3_invalid_input_rejected allOkOracle stGood stGood "" "hi" rfl rfl (Or.inl (by decide))

/-- Claim C4 (confirmed): on a connectionClosed event whose Boom status code
is DisconnectReason.loggedOut (401), readiness and the pairing challenge are
cleared, the logged-out auth failure notification is emitted, and no
re-initialization is scheduled: the effect list is exactly the session
clear pair followed by the logged-out notification, with no scheduleReinit
entry.  shouldReconnect is false precisely because the Boom status equals
the logged-out code, so attemptReinitialization is never reached. -/
theorem C4_logged_out_no_reconnect (st : ClientState) :
    (handleConnClose true (some DisconnectReason_loggedOut) st).1.isReady = false ∧
    (handleConnClose true (some DisconnectReason_loggedOut) st).1.lastQr = none ∧
    (handleConnClose true (some DisconnectReason_loggedOut) st).2 =
      [Effect.sessionClearedNotify, Effect.sessionAutoClearedNotify "401_unauthorized",
       Effect.authFailureNotify "Logged out from WhatsApp"] ∧
    hasScheduleReinit (handleConnClose true (some DisconnectReason_loggedOut) st).2 = false :=
  ⟨rfl, rfl, rfl, rfl⟩

/-- Claim C5 (confirmed): processing a connectionOpened event resets the
attempt counter to 0, sets readiness with its timestamp, and emits the
ready notification (followed by the backward compatibility connected
notification). -/
theorem C5_open_resets_counter (now : Nat) (st : ClientState) :
    (handleConnOpen now st).1.initializationAttempts = 0 ∧
    (handleConnOpen now st).1.isReady = true ∧
    (handleConnOpen now st).1.lastReadyAt = some now ∧
    (handleConnOpen now st).2 = [Effect.readyNotify false, Effect.connectedNotify] :=
  ⟨rfl, rfl, rfl, rfl⟩

/-- Claim C6 (corrected), counterexample: from an open ready state, a Boom
connectionClosed with status 401 wipes the session credentials, but no
reconnection is attempted: 401 equals DisconnectReason.loggedOut, so
shouldReconnect is false and the effect list contains no scheduleReinit
entry, only the session clear notifications and the logged-out auth
failure. -/
theorem C6_counterexample :
    (handleConnClose true (some 401) openClientState).1.sessionCreds = false ∧
    hasScheduleReinit (handleConnClose true (some 401) openClientState).2 = false ∧
    (handleConnClose true (some 401) openClientState).2 =
      [Effect.sessionClearedNotify, Effect.sessionAutoClearedNotify "401_unauthorized",
       Effect.authFailureNotify "Logged out from WhatsApp"] := by
  decide

/-- Claim C6 (corrected), amended: on a Boom connectionClosed with status
401 the persisted session credentials are wiped (auto-clear with reason
401_unauthorized) and the socket is dropped, but no reconnection is
attempted: 401 is also the Baileys logged-out code, so the handler takes
the logged-out path and emits the logged-out notification instead of
scheduling a re-initialization; fresh pairing only happens after an
external restart. -/
theorem C6_auth401_wipes_no_reconnect (st : ClientState) :
    (handleConnClose true (some 401) st).1.sessionCreds = false ∧
    (handleConnClose true (some 401) st).1.sockExists = false ∧
    hasScheduleReinit (handleConnClose true (some 401) st).2 = false ∧
    Effect.sessionAutoClearedNotify "401_unauthorized" ∈
      (handleConnClose true (some 401) st).2 := by
  refine ⟨rfl, rfl, rfl, ?_⟩
  have hE : (handleConnClose true (some 401) st).2 =
      [Effect.sessionClearedNotify, Effect.sessionAutoClearedNotify "401_unauthorized",
       Effect.authFailureNotify "Logged out from WhatsApp"] := rfl
  rw [hE]
  simp

/-- Claim C7 (confirmed): for every oracle of transport outcomes and every
input, sendMessage makes at most 1 + MAX_SEND_RETRIES transport calls (so
at most 3 additional attempts), sleeps the fixed RETRY_DELAY before every
retry, and triggers the reinitializeConnection re-establishment exactly
once, before the first retry, whenever at least one retry happens, and
never on later retries. -/
theorem C7_send_retry_policy (oracle : Nat → AttemptOutcome) (st stReinit : SendState)
    (phoneNumber message : String) :
    (sendMessage oracle st stReinit phoneNumber message).transportCalls ≤
      1 + MAX_SEND_RETRIES ∧
    (sendMessage oracle st stReinit phoneNumber message).retryDelays.length ≤
      MAX_SEND_RETRIES ∧
    (sendMessage oracle st stReinit phoneNumber message).retryDelays =
      List.replicate (sendMessage oracle st stReinit phoneNumber message).retryDelays.length
        SEND_RETRY_DELAY_MS ∧
    (sendMessage oracle st stReinit phoneNumber message).reinitAt =
      (if (sendMessage oracle st stReinit phoneNumber message).retryDelays = []
       then ([] : List Nat) else [0]) := by
  have h := sendMessageRec_spec oracle stReinit phoneNumber message MAX_SEND_RETRIES 0 st
  unfold SendOk at h
  unfold sendMessage
  simpa using h

/-- Claim C8 (confirmed): once the attempt counter has reached
MAX_INITIALIZATION_ATTEMPTS, attemptReinitialization schedules nothing
further: it clears the session credentials, drops the socket, and its
effects are exactly the session cleared notification followed by the
permanent failure auth notification, with no scheduleReinit entry. -/
theorem C8_attempt_cap_permanent_failure (st : ClientState)
    (h : MAX_INITIALIZATION_ATTEMPTS ≤ st.initializationAttempts) :
    (attemptReinitialization st).1.sessionCreds = false ∧
    (attemptReinitialization st).1.sockExists = false ∧
    hasScheduleReinit (attemptReinitialization st).2 = false ∧
    (attemptReinitialization st).2 =
      [Effect.sessionClearedNotify,
       Effect.authFailureNotify
         "Maximum initialization attempts reached. Please try again later."] := by
  unfold attemptReinitialization
  rw [if_neg (Nat.not_lt.mpr h)]
  exact ⟨rfl, rfl, rfl, rfl⟩

/-- Witness for claim C8 at a counter exactly at the cap. -/
theorem C8_witness :
    (attemptReinitialization (stateWithAttempts 5)).1.sessionCreds = false ∧
    (attemptReinitialization (stateWithAttempts 5)).1.sockExists = false ∧
    hasScheduleReinit (attemptReinitialization (stateWithAttempts 5)).2 = false ∧
    (attemptReinitialization (stateWithAttempts 5)).2 =
      [Effect.sessionClearedNotify,
       Effect.authFailureNotify
         "Maximum initialization attempts reached. Please try again later."] :=
  C8_attempt_cap_permanent_failure (stateWithAttempts 5) (by decide)

/-- Claim C9 (confirmed): a reentrant call of the initialization entry point
while isInitializing is set returns immediately, leaving the whole state
(socket, pairing challenge, readiness, attempt counter, credentials)
unchanged and emitting no effect, whatever the environment would have
done. -/
theorem C9_reentrant_init_noop (env : InitOutcome) (st : ClientState)
    (h : st.isInitializing = true) :
    initClientStep env st = (st, []) := by
  unfold initClientStep
  rw [if_pos h]

/-- Witness for claim C9 on the concrete in-flight state. -/
theorem C9_witness :
    initClientStep InitOutcome.socketCreated freshClientState = (freshClientState, []) :=
  C9_reentrant_init_noop InitOutcome.socketCreated freshClientState rfl

/-- Claim C10 (confirmed): a state with isReady true is reachable without
ever processing a connectionOpened event.  From the post-initialization
state, a qr event schedules the 30 second auto-ready timer and firing it
(socket present with a send capability, qr still held) marks the client
ready and emits the auto ready notification; likewise a messages.upsert
while not ready schedules the 3 second timer whose firing marks the client
ready. -/
theorem C10_auto_ready_without_open :
    hasConnOpened [WaEvent.qr "QRDATA", WaEvent.qrTimerFired 30000] = false ∧
    Effect.scheduleTimer TimerKind.qrAutoReady QR_AUTO_READY_DELAY_MS ∈
      (stepEvent (WaEvent.qr "QRDATA") freshClientState).2 ∧
    (runTrace [WaEvent.qr "QRDATA", WaEvent.qrTimerFired 30000] freshClientState).isReady =
      true ∧
    Effect.readyNotify true ∈
      (stepEvent (WaEvent.qrTimerFired 30000)
        ((stepEvent (WaEvent.qr "QRDATA") freshClientState).1)).2 ∧
    hasConnOpened [WaEvent.messagesUpsert 1, WaEvent.msgTimerFired 3000] = false ∧
    Effect.scheduleTimer TimerKind.msgAutoReady MSG_AUTO_READY_DELAY_MS ∈
      (stepEvent (WaEvent.messagesUpsert 1) freshClientState).2 ∧
    (runTrace [WaEvent.messagesUpsert 1, WaEvent.msgTimerFired 3000] freshClientState).isReady =
      true := by
  decide
